import Mathlib

/-!
Verification of the build-status classification engine of `src/lambda/bends.py`
(Signiant/bends).  The Python source is shallowly embedded: timestamps become
integers (seconds), the external HTTP collaborators (`get_latest_pipelines`,
`get_default_branch`) become function parameters packaged in `Env`, and the
Slack delivery is modelled as the list of calls the dispatcher would make.
-/

/-- One Bitbucket pipeline record, as consumed by the classifier.
`created_on` is the `created_on` timestamp (seconds, comparable with `now`);
`trigger_name` is `pipeline["trigger"]["name"]`;
`target_selector_pattern` is `pipeline["target"]["selector"]["pattern"]`;
`state_result_name` is `pipeline["state"].get("result")["name"]`, absent
while the pipeline is still running. -/
structure Pipeline where
  created_on : Int
  trigger_name : String
  target_selector_pattern : String
  state_result_name : Option String
deriving DecidableEq, Repr

/-- One service entry, the dicts built by `get_active_services`. -/
structure Service where
  RepositorySlug : String
  RepositoryUrl : String
deriving DecidableEq, Repr

/-- The `timedelta(weeks=1)` recency window, in seconds. -/
def one_week : Int := 7 * 24 * 60 * 60

/-- The per-record recency test `today - creation_date <= recent` shared by
`check_development_status` and `get_recent_scheduled_pipeline`. -/
def is_recent (now : Int) (p : Pipeline) : Bool :=
  now - p.created_on ≤ one_week

/-- The scan loop of `check_development_status` (bends.py lines 291-310):
`recent_pipelines` counts within-window records seen so far; a stale record
breaks the loop. -/
def check_dev_scan (now : Int) (recent_pipelines : Nat) : List Pipeline → Bool
  | [] => false
  | p :: rest =>
    if is_recent now p then
      if p.trigger_name ≠ "SCHEDULE" ∨ recent_pipelines + 1 > 1 then true
      else check_dev_scan now (recent_pipelines + 1) rest
    else false

/-- `check_development_status` (bends.py lines 280-313): true iff the
repository is in development. -/
def check_development_status (now : Int) (pipelines : List Pipeline) : Bool :=
  check_dev_scan now 0 pipelines

/-- The Python comparison `pipeline["target"]["selector"]["pattern"] == branch`
where `branch : str | None`; comparing a string against `None` is `False`. -/
def branch_matches (branch : Option String) (p : Pipeline) : Bool :=
  match branch with
  | some b => p.target_selector_pattern == b
  | none => false

/-- The scan loop of `get_recent_scheduled_pipeline` (bends.py lines 259-277):
returns the first within-window record that is scheduled and on `branch`;
a stale record breaks the loop. -/
def scheduled_scan (now : Int) (branch : Option String) : List Pipeline → Option Pipeline
  | [] => none
  | p :: rest =>
    if is_recent now p then
      if p.trigger_name == "SCHEDULE" && branch_matches branch p then some p
      else scheduled_scan now branch rest
    else none

/-- `get_recent_scheduled_pipeline` (bends.py lines 249-277).  The external
`get_default_branch` collaborator is passed in as `getDefaultBranch`; the
source fetches the branch once, before the loop. -/
def get_recent_scheduled_pipeline (now : Int) (getDefaultBranch : String → Option String)
    (repo_slug : String) (pipelines : List Pipeline) : Option Pipeline :=
  scheduled_scan now (getDefaultBranch repo_slug) pipelines

/-- Python stdlib `re.search`, modelled at the collaborator interface for the
anchored/literal pattern fragment this repository passes to it: a leading `^`
anchors the remainder as a literal prefix of the subject (no MULTILINE flag is
set), and any other pattern is a literal searched for at every position. -/
def re_search (pattern s : String) : Bool :=
  match pattern.data with
  | '^' :: rest => List.isPrefixOf rest s.data
  | _ => decide (List.IsInfix pattern.data s.data)

/-- `match_override` (bends.py lines 366-379) as its signature declares it:
first pattern whose `re.search` against the slug succeeds returns `True`. -/
def match_override (repo_slug : String) : List String → Bool
  | [] => false
  | pattern :: rest =>
    if re_search pattern repo_slug then true else match_override repo_slug rest

/-- A Python runtime value passed where `re.search` expects a string: either a
string, or the service dict that `process_services` actually passes. -/
inductive PyVal where
  | str : String → PyVal
  | dict : Service → PyVal
deriving DecidableEq, Repr

/-- Dynamic behaviour of `match_override`: `re.Pattern.search` raises
`TypeError` as soon as it is handed a non-string argument (which happens on the
first pattern, before any matching). -/
def match_override_dyn (arg : PyVal) : List String → Except String Bool
  | [] => Except.ok false
  | pattern :: rest =>
    match arg with
    | PyVal.str s =>
      if re_search pattern s then Except.ok true else match_override_dyn arg rest
    | PyVal.dict _ => Except.error "TypeError: expected string or bytes-like object"

/-- The external collaborators `process_services` depends on, plus the wall
clock read by the classifier (the RecencyClock of the spec):
`getLatestPipelines` models `get_latest_pipelines` (`none` on fetch error) and
`getDefaultBranch` models `get_default_branch` (`none` on fetch error). -/
structure Env where
  now : Int
  getLatestPipelines : String → Option (List Pipeline)
  getDefaultBranch : String → Option String

/-- How one service iteration of `process_services` ends: skipped with no
ledger entry, appended to `Succeeded`, or appended to `Failed`. -/
inductive Outcome where
  | skipped
  | succeeded
  | failed
deriving DecidableEq, Repr

/-- The per-team accumulator `{"Succeeded": [], "Failed": []}`. -/
structure TeamLedger where
  Succeeded : List Service
  Failed : List Service
deriving DecidableEq, Repr

/-- The `== "FAILED"` classification of bends.py lines 478-486: take
`state.get("result")`, then its `name` if present; Python's `None == "FAILED"`
is `False`, so an absent result is not failed. -/
def build_state_failed (p : Pipeline) : Bool :=
  match p.state_result_name with
  | some name => name == "FAILED"
  | none => false

/-- One iteration of the service loop of `process_services` (bends.py lines
457-486).  Note the source passes the whole `service` dict — not
`service["RepositorySlug"]` — to `match_override`, so a non-empty override
list raises `TypeError` (propagated as `Except.error`).  `if not pipelines:`
skips both a failed fetch (`none`) and an empty page. -/
def process_service (env : Env) (override : List String) (s : Service) :
    Except String Outcome :=
  match (if override.isEmpty then Except.ok false
         else match_override_dyn (PyVal.dict s) override) with
  | Except.error e => Except.error e
  | Except.ok true => Except.ok Outcome.skipped
  | Except.ok false =>
    match env.getLatestPipelines s.RepositorySlug with
    | none => Except.ok Outcome.skipped
    | some pipelines =>
      if pipelines.isEmpty then Except.ok Outcome.skipped
      else if check_development_status env.now pipelines then Except.ok Outcome.skipped
      else
        match get_recent_scheduled_pipeline env.now env.getDefaultBranch
            s.RepositorySlug pipelines with
        | none => Except.ok Outcome.skipped
        | some p =>
          if build_state_failed p then Except.ok Outcome.failed
          else Except.ok Outcome.succeeded

/-- The service loop of `process_services` for one team, accumulating into the
team's ledger; an uncaught `TypeError` aborts the whole pass. -/
def process_team_go (env : Env) (override : List String) (acc : TeamLedger) :
    List Service → Except String TeamLedger
  | [] => Except.ok acc
  | s :: rest =>
    match process_service env override s with
    | Except.error e => Except.error e
    | Except.ok Outcome.skipped => process_team_go env override acc rest
    | Except.ok Outcome.succeeded =>
      process_team_go env override { acc with Succeeded := acc.Succeeded ++ [s] } rest
    | Except.ok Outcome.failed =>
      process_team_go env override { acc with Failed := acc.Failed ++ [s] } rest

/-- Builds one team's `{"Succeeded": [], "Failed": []}` ledger, starting
empty as in bends.py line 456. -/
def process_team (env : Env) (override : List String) (services : List Service) :
    Except String TeamLedger :=
  process_team_go env override ⟨[], []⟩ services

/-- The team loop of `process_services` (bends.py lines 446-487), producing
`teams_recent_builds` as an insertion-ordered association list.  `teams` is
the allow-list (`[]` models Python's falsy `None`/empty list: no filtering);
a team not in a non-empty allow-list is skipped before its ledger is created. -/
def process_services_go (env : Env) (teams override : List String)
    (acc : List (String × TeamLedger)) :
    List (String × List Service) → Except String (List (String × TeamLedger))
  | [] => Except.ok acc
  | (team, services) :: rest =>
    if teams ≠ [] ∧ team ∉ teams then
      process_services_go env teams override acc rest
    else
      match process_team env override services with
      | Except.error e => Except.error e
      | Except.ok ledger =>
        process_services_go env teams override (acc ++ [(team, ledger)]) rest

/-- `process_services` up to the ledger it hands to the renderers (the
rendering and delivery tail is modelled separately by
`generate_overall_summary`, `generate_team_summaries` and
`post_team_summaries_to_slack`). -/
def process_services (env : Env) (teams override : List String)
    (teams_services : List (String × List Service)) :
    Except String (List (String × TeamLedger)) :=
  process_services_go env teams override [] teams_services

/-- One Slack presentation block: a `header`, a `divider`, or a mrkdwn
`section` (constructor `sect`, since `section` is a Lean keyword) carrying
its text. -/
inductive Block where
  | header : String → Block
  | divider : Block
  | sect : String → Block
deriving DecidableEq, Repr

/-- The success-count text built identically (verbatim duplicate code) in
`generate_overall_summary` (bends.py lines 103-109) and
`generate_team_summaries` (bends.py lines 166-172); the f-string renders the
count in decimal. -/
def success_text (n : Nat) : String :=
  "*Successful Builds*\n" ++
    (if n = 1 then ">*" ++ toString n ++ " repository* had a successful build."
     else ">*" ++ toString n ++ " repositories* had successful builds.")

/-- One `">• <url|slug>\n"` line of the failed-builds list. -/
def failed_link_line (b : Service) : String :=
  ">• <" ++ b.RepositoryUrl ++ "|" ++ b.RepositorySlug ++ ">\n"

/-- The failed-builds text of `generate_overall_summary` (bends.py lines
121-126); the empty branch appends to the header with `+=`. -/
def overall_failed_text (failed : List Service) : String :=
  if failed.length ≠ 0 then
    failed.foldl (fun t b => t ++ failed_link_line b) "*Failed Builds*\n"
  else "*Failed Builds*\n" ++ ">No failed builds."

/-- The failed-builds text of `generate_team_summaries` (bends.py lines
189-194); its empty branch (dead code, the zero-failure team was skipped
earlier) overwrites the header with `=`. -/
def team_failed_text (failed : List Service) : String :=
  if failed.length ≠ 0 then
    failed.foldl (fun t b => t ++ failed_link_line b) "*Failed Builds*\n"
  else ">No failed builds."

/-- The block sequence `generate_team_summaries` builds for one team with
failures (bends.py lines 154-204). -/
def team_summary_blocks (lg : TeamLedger) : List Block :=
  [Block.header "Build Error Notification Dispatch System",
   Block.divider,
   Block.sect (success_text lg.Succeeded.length),
   Block.divider,
   Block.sect (team_failed_text lg.Failed)]

/-- `generate_team_summaries` (bends.py lines 140-207): the insertion-ordered
dict of per-team block sequences; a team whose `Failed` list is empty is
skipped with `continue`. -/
def generate_team_summaries (ledgers : List (String × TeamLedger)) :
    List (String × List Block) :=
  ledgers.filterMap (fun tl =>
    if tl.2.Failed.length = 0 then none
    else some (tl.1, team_summary_blocks tl.2))

/-- The blocks `generate_overall_summary` appends for one team (bends.py
lines 76-136). -/
def overall_team_blocks (team : String) (lg : TeamLedger) : List Block :=
  [Block.divider, Block.sect ("Team: *" ++ team ++ "*")] ++
    (if lg.Succeeded.length = 0 ∧ lg.Failed.length = 0 then
      [Block.sect "No scheduled builds in repositories not in development."]
    else
      [Block.sect (success_text lg.Succeeded.length),
       Block.sect (overall_failed_text lg.Failed)])

/-- `generate_overall_summary` (bends.py lines 58-137). -/
def generate_overall_summary (ledgers : List (String × TeamLedger)) : List Block :=
  Block.header "Build Error Notification Dispatch System" ::
    (ledgers.map (fun tl => overall_team_blocks tl.1 tl.2)).flatten

/-- The slice loop `for i in range(0, len(l), step): l[i:i+step]` of
`post_team_summaries_to_slack`, with the step encoded as `step_pred + 1` so
that it is positive by construction (Python's `range` raises on step 0; the
only call site uses the default step 10, i.e. `step_pred = 9`).  `fuel`
bounds the number of slices for structural recursion; every step consumes at
least one element, so any `fuel ≥ l.length` reproduces the loop. -/
def chunk_slices_fuel (step_pred : Nat) : Nat → List α → List (List α)
  | _, [] => []
  | 0, _ :: _ => []
  | fuel + 1, a :: l =>
    (a :: l).take (step_pred + 1) ::
      chunk_slices_fuel step_pred fuel ((a :: l).drop (step_pred + 1))

/-- The slices `l[0:step]`, `l[step:2*step]`, ... taken by the dispatcher. -/
def chunk_slices (step_pred : Nat) (l : List α) : List (List α) :=
  chunk_slices_fuel step_pred l.length l

/-- `post_team_summaries_to_slack` (bends.py lines 42-55), modelled as the
ordered list of `post_to_slack(team, chunk)` delivery calls it makes, with the
default `max_blocks_per_message = 10`. -/
def post_team_summaries_to_slack (summaries : List (String × List α)) :
    List (String × List α) :=
  (summaries.map (fun ts => (chunk_slices 9 ts.2).map (fun c => (ts.1, c)))).flatten

/-- After one within-window scheduled record has been counted, the scan is
decided by the very next record: any further within-window record is a second
recent record. -/
lemma check_dev_scan_one (now : Int) (l : List Pipeline) :
    check_dev_scan now 1 l = match l with | [] => false | q :: _ => is_recent now q := by
  cases l with
  | nil => rfl
  | cons q t =>
    simp only [check_dev_scan]
    cases hq : is_recent now q <;> simp [hq]

/-- Claim C1: for every newest-first build history, `check_development_status`
returns true exactly when, scanning from newest to oldest and stopping at the
first record older than one week, it meets a within-window record whose
trigger is not `SCHEDULE`, or meets a second within-window record of any kind;
otherwise (window or list exhausted) it returns false. -/
theorem claim1_in_development_iff (now : Int) (ps : List Pipeline) :
    check_development_status now ps =
      ((ps.takeWhile (is_recent now)).any (fun p => decide (p.trigger_name ≠ "SCHEDULE"))
        || decide (2 ≤ (ps.takeWhile (is_recent now)).length)) := by
  cases ps with
  | nil => rfl
  | cons p rest =>
    simp only [check_development_status, check_dev_scan, List.takeWhile_cons]
    cases hr : is_recent now p
    · simp
    · by_cases hs : p.trigger_name = "SCHEDULE"
      · cases rest with
        | nil => simp [hs, check_dev_scan_one]
        | cons q t =>
          cases hq : is_recent now q <;>
            simp [hs, hq, check_dev_scan_one, List.takeWhile_cons, Nat.succ_le_succ,
              Nat.le_add_right]
      · simp [hs]

/-- A manually pushed (non-scheduled) pipeline record created at time 0. -/
def pipeline_push : Pipeline :=
  { created_on := 0, trigger_name := "PUSH", target_selector_pattern := "main",
    state_result_name := none }

/-- Claim C2 counterexample: a history whose single (hence newest) record has a
non-scheduled trigger but is older than one week (`now = 700000 > 604800`)
makes `check_development_status` return false, although the claim demands true
regardless of the newest record's age. -/
theorem claim2_counterexample :
    pipeline_push.trigger_name ≠ "SCHEDULE" ∧
    is_recent 700000 pipeline_push = false ∧
    check_development_status 700000 [pipeline_push] = false := by
  refine ⟨by decide, by decide, by decide⟩

/-- Claim C2 (amended): for every non-empty build history whose newest record
is within the one-week window and has a non-scheduled trigger kind,
`check_development_status` returns true, regardless of the remaining older
records. -/
theorem claim2_newest_nonscheduled_in_development (now : Int) (p : Pipeline)
    (rest : List Pipeline) (hrecent : is_recent now p = true)
    (htrig : p.trigger_name ≠ "SCHEDULE") :
    check_development_status now (p :: rest) = true := by
  simp [check_development_status, check_dev_scan, hrecent, htrig]

/-- Witness for the amended claim C2 at a concrete within-window push record. -/
theorem claim2_newest_nonscheduled_in_development_witness :
    check_development_status 100 [pipeline_push] = true :=
  claim2_newest_nonscheduled_in_development 100 pipeline_push [] (by decide) (by decide)

/-- The scan of `get_recent_scheduled_pipeline` is `find?` over the
within-window prefix of the history. -/
lemma scheduled_scan_eq_find (now : Int) (b : String) (ps : List Pipeline) :
    scheduled_scan now (some b) ps =
      (ps.takeWhile (is_recent now)).find?
        (fun p => p.trigger_name == "SCHEDULE" && p.target_selector_pattern == b) := by
  induction ps with
  | nil => rfl
  | cons p rest ih =>
    simp only [scheduled_scan, branch_matches, List.takeWhile_cons]
    cases hr : is_recent now p
    · simp
    · by_cases hc : (p.trigger_name == "SCHEDULE" && p.target_selector_pattern == b) = true
      · simp [List.find?, hc]
      · simp only [Bool.not_eq_true] at hc
        simp [List.find?, hc, ih]

/-- Claim C4: `get_recent_scheduled_pipeline` returns the first record —
scanning newest to oldest and stopping at the first record older than one
week — whose trigger is `SCHEDULE` and whose target branch pattern equals the
default branch (none when no such within-window record exists), and it never
returns a record whose target branch pattern differs from that branch. -/
theorem claim4_recent_scheduled_is_first_match (now : Int) (b : String)
    (slug : String) (ps : List Pipeline) :
    get_recent_scheduled_pipeline now (fun _ => some b) slug ps =
      (ps.takeWhile (is_recent now)).find?
        (fun p => p.trigger_name == "SCHEDULE" && p.target_selector_pattern == b) ∧
    Option.all (fun p => p.target_selector_pattern == b)
      (get_recent_scheduled_pipeline now (fun _ => some b) slug ps) = true := by
  have h := scheduled_scan_eq_find now b ps
  refine ⟨h, ?_⟩
  unfold get_recent_scheduled_pipeline
  rw [h]
  cases hf : (ps.takeWhile (is_recent now)).find?
      (fun p => p.trigger_name == "SCHEDULE" && p.target_selector_pattern == b) with
  | none => rfl
  | some p =>
    have := List.find?_some hf
    simp only [Bool.and_eq_true] at this
    simp [Option.all, this.2]

/-- The development scan breaks at a stale record: everything after it is
never inspected, whatever the counter. -/
lemma check_dev_scan_stale_stops (now : Int) (p : Pipeline)
    (hstale : is_recent now p = false) (pre : List Pipeline) :
    ∀ (n : Nat) (rest rest' : List Pipeline),
      check_dev_scan now n (pre ++ p :: rest) = check_dev_scan now n (pre ++ p :: rest') := by
  induction pre with
  | nil => intro n rest rest'; simp [check_dev_scan, hstale]
  | cons q t ih =>
    intro n rest rest'
    simp only [List.cons_append, check_dev_scan]
    cases hq : is_recent now q
    · rfl
    · simp [ih (n + 1) rest rest']

/-- The scheduled-build scan breaks at a stale record: everything after it is
never inspected. -/
lemma scheduled_scan_stale_stops (now : Int) (b : Option String) (p : Pipeline)
    (hstale : is_recent now p = false) (pre : List Pipeline) :
    ∀ (rest rest' : List Pipeline),
      scheduled_scan now b (pre ++ p :: rest) = scheduled_scan now b (pre ++ p :: rest') := by
  induction pre with
  | nil => intro rest rest'; simp [scheduled_scan, hstale]
  | cons q t ih =>
    intro rest rest'
    simp only [List.cons_append, scheduled_scan]
    cases hq : is_recent now q
    · rfl
    · by_cases hc : (q.trigger_name == "SCHEDULE" && branch_matches b q) = true
      · simp [hc]
      · simp only [Bool.not_eq_true] at hc
        simp only [hc]
        simpa using ih rest rest'

/-- Claim C5: records strictly older than the one-week window never influence
either classifier: a history of exactly one stale scheduled record yields
`check_development_status` false and `get_recent_scheduled_pipeline` none,
and for both functions the records after a stale record are never inspected
(replacing them changes nothing). -/
theorem claim5_stale_records_never_influence (now : Int) (b : Option String)
    (slug : String) (p : Pipeline) (hstale : is_recent now p = false)
    (_hsched : p.trigger_name = "SCHEDULE") (pre rest rest' : List Pipeline) :
    check_development_status now [p] = false ∧
    get_recent_scheduled_pipeline now (fun _ => b) slug [p] = none ∧
    check_development_status now (pre ++ p :: rest) =
      check_development_status now (pre ++ p :: rest') ∧
    get_recent_scheduled_pipeline now (fun _ => b) slug (pre ++ p :: rest) =
      get_recent_scheduled_pipeline now (fun _ => b) slug (pre ++ p :: rest') := by
  refine ⟨?_, ?_, ?_, ?_⟩
  · simp [check_development_status, check_dev_scan, hstale]
  · simp [get_recent_scheduled_pipeline, scheduled_scan, hstale]
  · exact check_dev_scan_stale_stops now p hstale pre 0 rest rest'
  · exact scheduled_scan_stale_stops now b p hstale pre rest rest'

/-- A scheduled pipeline record created one full week plus change before
time 0 (stale for `now = 0`). -/
def pipeline_sched_old : Pipeline :=
  { created_on := -700000, trigger_name := "SCHEDULE", target_selector_pattern := "main",
    state_result_name := some "SUCCESSFUL" }

/-- A scheduled pipeline record created at time 0 (recent for `now = 0`). -/
def pipeline_sched_new : Pipeline :=
  { created_on := 0, trigger_name := "SCHEDULE", target_selector_pattern := "main",
    state_result_name := some "SUCCESSFUL" }

/-- Witness for claim C5 at a concrete stale scheduled record, with a recent
scheduled record hidden behind it that the scan must not reach. -/
theorem claim5_stale_records_never_influence_witness :
    check_development_status 0 [pipeline_sched_old] = false ∧
    get_recent_scheduled_pipeline 0 (fun _ => some "main") "repo" [pipeline_sched_old] = none ∧
    check_development_status 0 ([] ++ pipeline_sched_old :: [pipeline_sched_new]) =
      check_development_status 0 ([] ++ pipeline_sched_old :: []) ∧
    get_recent_scheduled_pipeline 0 (fun _ => some "main") "repo"
        ([] ++ pipeline_sched_old :: [pipeline_sched_new]) =
      get_recent_scheduled_pipeline 0 (fun _ => some "main") "repo"
        ([] ++ pipeline_sched_old :: []) :=
  claim5_stale_records_never_influence 0 (some "main") "repo" pipeline_sched_old
    (by decide) (by decide) [] [pipeline_sched_new] []

/-- Decidable equality for the `Except`-valued service outcomes, by cases on
the constructors. -/
instance : DecidableEq (Except String Outcome) := fun x y =>
  match x, y with
  | Except.error a, Except.error b =>
    if h : a = b then isTrue (congrArg Except.error h)
    else isFalse (fun hh => h (Except.error.inj hh))
  | Except.ok a, Except.ok b =>
    if h : a = b then isTrue (congrArg Except.ok h)
    else isFalse (fun hh => h (Except.ok.inj hh))
  | Except.error _, Except.ok _ => isFalse (fun hh => Except.noConfusion hh)
  | Except.ok _, Except.error _ => isFalse (fun hh => Except.noConfusion hh)

/-- Characterization of a successful team pass: whenever the service loop
finishes without raising, each ledger list is exactly the accumulator followed
by the services whose iteration chose that list, and every service's iteration
finished without raising. -/
lemma process_team_go_ok (env : Env) (override : List String) :
    ∀ (svcs : List Service) (acc ledger : TeamLedger),
      process_team_go env override acc svcs = Except.ok ledger →
      ledger.Succeeded = acc.Succeeded ++ svcs.filter
        (fun s => decide (process_service env override s = Except.ok Outcome.succeeded)) ∧
      ledger.Failed = acc.Failed ++ svcs.filter
        (fun s => decide (process_service env override s = Except.ok Outcome.failed)) ∧
      ∀ s ∈ svcs, ∃ out, process_service env override s = Except.ok out := by
  intro svcs
  induction svcs with
  | nil =>
    intro acc ledger h
    simp only [process_team_go, Except.ok.injEq] at h
    subst h
    simp
  | cons s rest ih =>
    intro acc ledger h
    simp only [process_team_go] at h
    cases hps : process_service env override s with
    | error e => rw [hps] at h; cases h
    | ok out =>
      rw [hps] at h
      cases out with
      | skipped =>
        obtain ⟨h1, h2, h3⟩ := ih acc ledger h
        refine ⟨?_, ?_, ?_⟩
        · simpa [List.filter_cons, hps] using h1
        · simpa [List.filter_cons, hps] using h2
        · intro x hx
          rcases List.mem_cons.1 hx with hx | hx
          · exact ⟨Outcome.skipped, hx ▸ hps⟩
          · exact h3 x hx
      | succeeded =>
        obtain ⟨h1, h2, h3⟩ := ih _ ledger h
        refine ⟨?_, ?_, ?_⟩
        · simpa [List.filter_cons, hps] using h1
        · simpa [List.filter_cons, hps] using h2
        · intro x hx
          rcases List.mem_cons.1 hx with hx | hx
          · exact ⟨Outcome.succeeded, hx ▸ hps⟩
          · exact h3 x hx
      | failed =>
        obtain ⟨h1, h2, h3⟩ := ih _ ledger h
        refine ⟨?_, ?_, ?_⟩
        · simpa [List.filter_cons, hps] using h1
        · simpa [List.filter_cons, hps] using h2
        · intro x hx
          rcases List.mem_cons.1 hx with hx | hx
          · exact ⟨Outcome.failed, hx ▸ hps⟩
          · exact h3 x hx

/-- Claim C10: in every ledger `process_services` produces, a team's
`Succeeded` and `Failed` lists are disjoint, each service occurrence feeds at
most one entry of one list, and a skipped service appears in neither list. -/
theorem claim10_ledger_lists_partition (env : Env) (override : List String)
    (svcs : List Service) (ledger : TeamLedger)
    (h : process_team env override svcs = Except.ok ledger) :
    (∀ s, s ∈ ledger.Succeeded → s ∉ ledger.Failed) ∧
    (∀ s, ledger.Succeeded.count s + ledger.Failed.count s ≤ svcs.count s) ∧
    (∀ s ∈ svcs, process_service env override s = Except.ok Outcome.skipped →
      s ∉ ledger.Succeeded ∧ s ∉ ledger.Failed) := by
  obtain ⟨h1, h2, -⟩ := process_team_go_ok env override svcs ⟨[], []⟩ ledger h
  simp only [List.nil_append] at h1 h2
  refine ⟨?_, ?_, ?_⟩
  · intro s hs hf
    rw [h1, List.mem_filter] at hs
    rw [h2, List.mem_filter] at hf
    have hss := of_decide_eq_true hs.2
    have hff := of_decide_eq_true hf.2
    rw [hss] at hff
    cases hff
  · intro s
    rw [h1, h2]
    by_cases hsucc : process_service env override s = Except.ok Outcome.succeeded
    · have hnotf : s ∉ svcs.filter
          (fun s => decide (process_service env override s = Except.ok Outcome.failed)) := by
        intro hmem
        have := of_decide_eq_true (List.mem_filter.1 hmem).2
        rw [hsucc] at this
        cases this
      rw [List.count_eq_zero.2 hnotf]
      simpa using (List.filter_sublist svcs).count_le s
    · have hnots : s ∉ svcs.filter
          (fun s => decide (process_service env override s = Except.ok Outcome.succeeded)) := by
        intro hmem
        exact hsucc (of_decide_eq_true (List.mem_filter.1 hmem).2)
      rw [List.count_eq_zero.2 hnots]
      simpa using (List.filter_sublist svcs).count_le s
  · intro s _ hskip
    constructor
    · rw [h1, List.mem_filter]
      rintro ⟨-, hdec⟩
      have := of_decide_eq_true hdec
      rw [hskip] at this
      cases this
    · rw [h2, List.mem_filter]
      rintro ⟨-, hdec⟩
      have := of_decide_eq_true hdec
      rw [hskip] at this
      cases this

/-- A within-window scheduled pipeline on `main` whose result is `FAILED`. -/
def pipeline_sched_failed : Pipeline :=
  { created_on := 0, trigger_name := "SCHEDULE", target_selector_pattern := "main",
    state_result_name := some "FAILED" }

/-- A catalog service entry whose repository has pipelines in `env_demo`. -/
def service_a : Service :=
  { RepositorySlug := "repo-a", RepositoryUrl := "https://bitbucket.org/example/repo-a" }

/-- A catalog service entry whose pipeline fetch fails in `env_demo`. -/
def service_b : Service :=
  { RepositorySlug := "repo-b", RepositoryUrl := "https://bitbucket.org/example/repo-b" }

/-- A concrete environment: `repo-a` has one recent failed scheduled pipeline,
every other fetch fails, and every default branch is `main`. -/
def env_demo : Env :=
  { now := 0,
    getLatestPipelines := fun slug =>
      if slug == "repo-a" then some [pipeline_sched_failed] else none,
    getDefaultBranch := fun _ => some "main" }

/-- Witness for claim C10 on a concrete two-service team: one failed service,
one skipped service. -/
theorem claim10_ledger_lists_partition_witness :
    (∀ s, s ∈ (TeamLedger.mk [] [service_a]).Succeeded →
      s ∉ (TeamLedger.mk [] [service_a]).Failed) ∧
    (∀ s, (TeamLedger.mk [] [service_a]).Succeeded.count s +
        (TeamLedger.mk [] [service_a]).Failed.count s ≤ [service_a, service_b].count s) ∧
    (∀ s ∈ [service_a, service_b],
      process_service env_demo [] s = Except.ok Outcome.skipped →
      s ∉ (TeamLedger.mk [] [service_a]).Succeeded ∧
      s ∉ (TeamLedger.mk [] [service_a]).Failed) :=
  claim10_ledger_lists_partition env_demo [] [service_a, service_b]
    (TeamLedger.mk [] [service_a]) (by rfl)

/-- The `FAILED` test in Bool form: a pipeline is classified failed exactly
when its result is present and named `FAILED`. -/
lemma build_state_failed_iff (p : Pipeline) :
    build_state_failed p = true ↔ p.state_result_name = some "FAILED" := by
  unfold build_state_failed
  cases hr : p.state_result_name with
  | none => simp
  | some name => simp [beq_iff_eq]

/-- Claim C6: for every service whose recent scheduled build is found (history
fetched, non-empty, not in development, scheduled build located), the ledger
builder puts the service in the team's `Failed` list exactly when the build's
result state is present and equals `FAILED`, and in the `Succeeded` list for
every other result value, including an absent one. -/
theorem claim6_failed_iff_result_failed (env : Env) (override : List String)
    (svcs : List Service) (s : Service) (pipelines : List Pipeline) (p : Pipeline)
    (ledger : TeamLedger)
    (hmem : s ∈ svcs)
    (hfetch : env.getLatestPipelines s.RepositorySlug = some pipelines)
    (hne : pipelines ≠ [])
    (hdev : check_development_status env.now pipelines = false)
    (hfind : get_recent_scheduled_pipeline env.now env.getDefaultBranch
      s.RepositorySlug pipelines = some p)
    (hok : process_team env override svcs = Except.ok ledger) :
    (s ∈ ledger.Failed ↔ p.state_result_name = some "FAILED") ∧
    (s ∈ ledger.Succeeded ↔ p.state_result_name ≠ some "FAILED") := by
  obtain ⟨h1, h2, h3⟩ := process_team_go_ok env override svcs ⟨[], []⟩ ledger hok
  simp only [List.nil_append] at h1 h2
  -- a ledger was produced, so the override branch did not raise: override = []
  have hov : override = [] := by
    cases hovr : override with
    | nil => rfl
    | cons pat rest =>
      obtain ⟨out, hout⟩ := h3 s hmem
      rw [hovr] at hout
      simp [process_service, match_override_dyn] at hout
  subst hov
  cases hb : build_state_failed p with
  | true =>
    have hres : p.state_result_name = some "FAILED" := (build_state_failed_iff p).1 hb
    have hps : process_service env [] s = Except.ok Outcome.failed := by
      simp [process_service, hfetch, hfind, hdev, List.isEmpty_iff, hne, hb]
    constructor
    · rw [h2, List.mem_filter]
      simp only [hres, iff_true]
      exact ⟨hmem, by simp [hps]⟩
    · rw [h1, List.mem_filter]
      simp only [hres, ne_eq, not_true_eq_false, iff_false]
      rintro ⟨-, hdec⟩
      have := of_decide_eq_true hdec
      rw [hps] at this
      cases this
  | false =>
    have hres : ¬ p.state_result_name = some "FAILED" := by
      rw [← build_state_failed_iff, hb]; simp
    have hps : process_service env [] s = Except.ok Outcome.succeeded := by
      simp [process_service, hfetch, hfind, hdev, List.isEmpty_iff, hne, hb]
    constructor
    · rw [h2, List.mem_filter]
      simp only [hres, iff_false]
      rintro ⟨-, hdec⟩
      have := of_decide_eq_true hdec
      rw [hps] at this
      cases this
    · rw [h1, List.mem_filter]
      simp only [hres, ne_eq, not_false_eq_true, iff_true]
      exact ⟨hmem, by simp [hps]⟩

/-- Witness for claim C6: the concrete failed scheduled build of `repo-a`
routes `service_a` to the `Failed` list. -/
theorem claim6_failed_iff_result_failed_witness :
    (service_a ∈ (TeamLedger.mk [] [service_a]).Failed ↔
      pipeline_sched_failed.state_result_name = some "FAILED") ∧
    (service_a ∈ (TeamLedger.mk [] [service_a]).Succeeded ↔
      pipeline_sched_failed.state_result_name ≠ some "FAILED") :=
  claim6_failed_iff_result_failed env_demo [] [service_a, service_b] service_a
    [pipeline_sched_failed] pipeline_sched_failed (TeamLedger.mk [] [service_a])
    (List.mem_cons_self _ _) rfl (by decide) rfl rfl rfl

/-- A service whose slug the anchored ignore pattern is meant to match. -/
def service_legacy : Service :=
  { RepositorySlug := "legacy-api", RepositoryUrl := "https://bitbucket.org/example/legacy-api" }

/-- Claim C3 evaluation: `match_override` on the slug strings does implement
the unanchored-search semantics the claim describes (`"^legacy-"` matches
`legacy-api`, not `my-legacy-api`), but `process_services` hands
`match_override` the whole service dict instead of its slug, so with any
non-empty ignore list the pass raises `TypeError` instead of skipping —
no service is ever compared against the patterns. -/
theorem claim3_override_typeerror :
    match_override "legacy-api" ["^legacy-"] = true ∧
    match_override "my-legacy-api" ["^legacy-"] = false ∧
    match_override_dyn (PyVal.dict service_legacy) ["^legacy-"] =
      Except.error "TypeError: expected string or bytes-like object" ∧
    process_services env_demo [] ["^legacy-"] [("teamA", [service_legacy])] =
      Except.error "TypeError: expected string or bytes-like object" := by
  refine ⟨by decide, by decide, rfl, rfl⟩


/-- With enough fuel, concatenating the slices reproduces the original block
sequence: the chunks are consecutive and positional, in order. -/
lemma chunk_slices_fuel_flatten (n : Nat) :
    ∀ (fuel : Nat) (l : List α), l.length ≤ fuel →
      (chunk_slices_fuel n fuel l).flatten = l := by
  intro fuel
  induction fuel with
  | zero =>
    intro l hl
    have hnil : l = [] := List.eq_nil_of_length_eq_zero (Nat.le_zero.1 hl)
    subst hnil
    rfl
  | succ fuel ih =>
    intro l hl
    cases l with
    | nil => rfl
    | cons a t =>
      simp only [chunk_slices_fuel, List.flatten_cons]
      rw [ih _ ?_]
      · exact List.take_append_drop _ _
      · simp only [List.length_drop, List.length_cons]
        simp only [List.length_cons] at hl
        omega

/-- Every slice holds at most `n + 1` blocks. -/
lemma chunk_slices_fuel_length_le (n : Nat) :
    ∀ (fuel : Nat) (l : List α), ∀ c ∈ chunk_slices_fuel n fuel l, c.length ≤ n + 1 := by
  intro fuel
  induction fuel with
  | zero =>
    intro l c hc
    cases l <;> simp [chunk_slices_fuel] at hc
  | succ fuel ih =>
    intro l c hc
    cases l with
    | nil => simp [chunk_slices_fuel] at hc
    | cons a t =>
      simp only [chunk_slices_fuel, List.mem_cons] at hc
      rcases hc with rfl | hc
      · simp [List.length_take]
      · exact ih _ c hc

/-- Claim C7: the dispatcher splits each team's block sequence positionally
into consecutive chunks of at most 10 blocks, forwarding each chunk as a
separate delivery call tagged with the same team; a 23-block sequence goes
out as three calls of sizes 10, 10, 3, in order. -/
theorem claim7_dispatch_chunks_of_ten (α : Type) (team : String) (blocks : List α) :
    (∀ c ∈ post_team_summaries_to_slack [(team, blocks)], c.1 = team ∧ c.2.length ≤ 10) ∧
    ((post_team_summaries_to_slack [(team, blocks)]).map Prod.snd).flatten = blocks ∧
    (post_team_summaries_to_slack [(team, List.range 23)]).map (fun c => c.2.length) =
      [10, 10, 3] := by
  refine ⟨?_, ?_, ?_⟩
  · intro c hc
    simp only [post_team_summaries_to_slack, List.map_cons, List.map_nil,
      List.flatten_cons, List.flatten_nil, List.append_nil, List.mem_map] at hc
    obtain ⟨chunk, hchunk, rfl⟩ := hc
    exact ⟨rfl, chunk_slices_fuel_length_le 9 blocks.length blocks chunk hchunk⟩
  · simp only [post_team_summaries_to_slack, List.map_cons, List.map_nil,
      List.flatten_cons, List.flatten_nil, List.append_nil, List.map_map]
    have hm : (Prod.snd ∘ fun c : List α => (team, c)) = id := rfl
    rw [hm, List.map_id]
    exact chunk_slices_fuel_flatten 9 blocks.length blocks le_rfl
  · rfl

/-- `String.join` distributes over `cons` (at the character-data level). -/
lemma string_join_cons (a : String) (l : List String) :
    String.join (a :: l) = a ++ String.join l := by
  apply String.ext
  simp [String.data_join, String.data_append]

/-- The text-accumulating loop over the failed list is the concatenation of
one formatted link line per failed repository, after the initial header. -/
lemma foldl_append_link_lines (l : List Service) :
    ∀ init : String, l.foldl (fun t b => t ++ failed_link_line b) init =
      init ++ String.join (l.map failed_link_line) := by
  induction l with
  | nil =>
    intro init
    have hj : String.join (List.map failed_link_line []) = "" := rfl
    rw [List.foldl_nil, List.map_nil] at *
    rw [hj, String.append_empty]
  | cons b t ih =>
    intro init
    rw [List.map_cons, string_join_cons, List.foldl_cons, ih, String.append_assoc]

/-- On a non-empty failed list the team digest's failure text is the header
followed by every repository's link line. -/
lemma team_failed_text_eq_join (failed : List Service) (h : failed ≠ []) :
    team_failed_text failed =
      "*Failed Builds*\n" ++ String.join (failed.map failed_link_line) := by
  unfold team_failed_text
  rw [if_pos (fun hh => h (List.length_eq_zero.1 hh))]
  exact foldl_append_link_lines failed _

/-- Claim C8: `generate_team_summaries` produces an entry for a team exactly
when that team's `Failed` list is non-empty (teams with zero failures are
omitted even with successes), and each produced entry's failure section lists
every repository of the team's `Failed` list as a formatted link line. -/
theorem claim8_per_team_digest_iff_failures (ledgers : List (String × TeamLedger))
    (team : String) :
    ((∃ bs, (team, bs) ∈ generate_team_summaries ledgers) ↔
      (∃ lg, (team, lg) ∈ ledgers ∧ lg.Failed ≠ [])) ∧
    (∀ bs, (team, bs) ∈ generate_team_summaries ledgers →
      ∃ lg, (team, lg) ∈ ledgers ∧ lg.Failed ≠ [] ∧
        bs[4]? = some (Block.sect ("*Failed Builds*\n" ++
          String.join (lg.Failed.map failed_link_line)))) := by
  constructor
  · constructor
    · rintro ⟨bs, hmem⟩
      rw [generate_team_summaries, List.mem_filterMap] at hmem
      obtain ⟨⟨t', lg⟩, hin, hf⟩ := hmem
      by_cases hz : lg.Failed.length = 0
      · simp [hz] at hf
      · simp only [hz, if_false, Option.some.injEq, Prod.mk.injEq] at hf
        obtain ⟨⟨ht, -⟩, -⟩ := And.intro hf trivial
        exact ⟨lg, ht ▸ hin, fun hnil => hz (by rw [hnil]; rfl)⟩
    · rintro ⟨lg, hin, hnil⟩
      refine ⟨team_summary_blocks lg, ?_⟩
      rw [generate_team_summaries, List.mem_filterMap]
      refine ⟨(team, lg), hin, ?_⟩
      simp only [if_neg (fun hh => hnil (List.length_eq_zero.1 hh))]
  · intro bs hmem
    rw [generate_team_summaries, List.mem_filterMap] at hmem
    obtain ⟨⟨t', lg⟩, hin, hf⟩ := hmem
    by_cases hz : lg.Failed.length = 0
    · simp [hz] at hf
    · simp only [hz, if_false, Option.some.injEq, Prod.mk.injEq] at hf
      obtain ⟨ht, hbs⟩ := hf
      have hnil : lg.Failed ≠ [] := fun hh => hz (by rw [hh]; rfl)
      refine ⟨lg, ht ▸ hin, hnil, ?_⟩
      rw [← hbs]
      have hget : (team_summary_blocks lg)[4]? =
          some (Block.sect (team_failed_text lg.Failed)) := rfl
      rw [hget, team_failed_text_eq_join lg.Failed hnil]

/-- Claim C9: in both renderers the success-count section uses the singular
phrasing exactly when the succeeded count is 1 and the plural phrasing for
every other count, including 0; the shared `success_text` appears at block
index 2 of the per-team digest and at block index 3 of the overall digest. -/
theorem claim9_success_pluralization (team : String) (lg : TeamLedger)
    (hf : lg.Failed ≠ []) :
    (lg.Succeeded.length = 1 →
      success_text lg.Succeeded.length =
        "*Successful Builds*\n>*1 repository* had a successful build.") ∧
    (lg.Succeeded.length ≠ 1 →
      success_text lg.Succeeded.length =
        "*Successful Builds*\n" ++ (">*" ++ toString lg.Succeeded.length ++
          " repositories* had successful builds.")) ∧
    (lg.Succeeded.length ≠ 1 →
      success_text lg.Succeeded.length ≠
        "*Successful Builds*\n>*1 repository* had a successful build.") ∧
    (∃ bs, generate_team_summaries [(team, lg)] = [(team, bs)] ∧
      bs[2]? = some (Block.sect (success_text lg.Succeeded.length))) ∧
    (generate_overall_summary [(team, lg)])[3]? =
      some (Block.sect (success_text lg.Succeeded.length)) := by
  refine ⟨?_, ?_, ?_, ?_, ?_⟩
  · intro h1
    rw [h1]
    decide
  · intro h1
    rw [success_text, if_neg h1]
  · intro h1 hcontra
    rw [success_text, if_neg h1] at hcontra
    have hd := congrArg (fun s => s.data.reverse[1]?) hcontra
    simp only [String.data_append, List.reverse_append, List.append_assoc] at hd
    rw [List.getElem?_append, if_pos (by decide)] at hd
    revert hd
    decide
  · refine ⟨team_summary_blocks lg, ?_, rfl⟩
    rw [generate_team_summaries]
    simp only [List.filterMap_cons, List.filterMap_nil,
      if_neg (fun hh => hf (List.length_eq_zero.1 hh))]
  · have hcond : ¬ (lg.Succeeded.length = 0 ∧ lg.Failed.length = 0) :=
      fun hh => hf (List.length_eq_zero.1 hh.2)
    rw [generate_overall_summary]
    simp only [List.map_cons, List.map_nil, List.flatten_cons, List.flatten_nil,
      List.append_nil, overall_team_blocks, if_neg hcond]
    rfl

/-- Witness for claim C9 on a concrete one-team ledger with one failure and
zero successes. -/
theorem claim9_success_pluralization_witness :
    ((TeamLedger.mk [] [service_a]).Succeeded.length = 1 →
      success_text (TeamLedger.mk [] [service_a]).Succeeded.length =
        "*Successful Builds*\n>*1 repository* had a successful build.") ∧
    ((TeamLedger.mk [] [service_a]).Succeeded.length ≠ 1 →
      success_text (TeamLedger.mk [] [service_a]).Succeeded.length =
        "*Successful Builds*\n" ++ (">*" ++
          toString (TeamLedger.mk [] [service_a]).Succeeded.length ++
          " repositories* had successful builds.")) ∧
    ((TeamLedger.mk [] [service_a]).Succeeded.length ≠ 1 →
      success_text (TeamLedger.mk [] [service_a]).Succeeded.length ≠
        "*Successful Builds*\n>*1 repository* had a successful build.") ∧
    (∃ bs, generate_team_summaries [("teamA", TeamLedger.mk [] [service_a])] =
        [("teamA", bs)] ∧
      bs[2]? = some (Block.sect
        (success_text (TeamLedger.mk [] [service_a]).Succeeded.length))) ∧
    (generate_overall_summary [("teamA", TeamLedger.mk [] [service_a])])[3]? =
      some (Block.sect (success_text (TeamLedger.mk [] [service_a]).Succeeded.length)) :=
  claim9_success_pluralization "teamA" (TeamLedger.mk [] [service_a]) (by decide)
